import Mathlib

/-!
Verification of the `MedicalImageClassifier` subsystem
(`backend/src/utils/medical_image_classifier.py`).

The Python code is shallowly embedded below.  Pixel data is modelled as
nested lists of natural numbers (rows of pixels, each pixel a list of
channel values on the 0-255 scale), and all derived statistics are exact
rationals.  Quantities the source computes with `numpy` operations whose
results are irrational in general (standard deviations, histogram-peak
analysis, `scipy` connected-component labeling) are taken as explicit
observation inputs, faithfully to how the source threads them into the
decision logic; every threshold comparison, branch order and produced
value is transcribed from the source.  The behaviour of the external
decoders (PIL `Image.open`, `pydicom.dcmread`) is modelled as an
`Except`-valued field of the input record, since those libraries are
outside the repository.
-/

set_option maxRecDepth 4000

namespace MedImg

/-! ### String containment (Python `needle in haystack`) -/

/-- Boolean test that the first character list starts the second, used to
implement Python substring containment. -/
def pfx_of : List Char → List Char → Bool
  | [], _ => true
  | _ :: _, [] => false
  | a :: as, b :: bs => a == b && pfx_of as bs

/-- Boolean test that the first character list occurs contiguously inside
the second. -/
def sub_list : List Char → List Char → Bool
  | n, [] => n.isEmpty
  | n, h :: t => pfx_of n (h :: t) || sub_list n t

/-- Python `needle in hay` on strings: contiguous-substring containment. -/
def sub_of (needle hay : String) : Bool :=
  sub_list needle.toList hay.toList

/-- Python `str.lower()` (ASCII, as used on filenames): character-wise
lowercasing. -/
def str_lower (s : String) : String :=
  String.mk (s.toList.map Char.toLower)

/-! ### Order-preserving deduplication (Python `dict.fromkeys`) -/

/-- Worker for `dedup_first`: drops elements already recorded in `seen`,
keeping first occurrences in order. -/
def dedup_loop : List String → List String → List String
  | [], _ => []
  | k :: t, seen =>
    if k ∈ seen then dedup_loop t seen else k :: dedup_loop t (k :: seen)

/-- Python `list(dict.fromkeys(keywords))`: removes exact duplicates while
preserving the order of first occurrences. -/
def dedup_first (l : List String) : List String := dedup_loop l []

theorem dedup_loop_mem_not_seen :
    ∀ (l seen : List String) (x : String), x ∈ dedup_loop l seen → x ∉ seen := by
  intro l
  induction l with
  | nil => intro seen x hx; simp [dedup_loop] at hx
  | cons k t ih =>
    intro seen x hx
    by_cases hk : k ∈ seen
    · simp [dedup_loop, hk] at hx
      exact ih seen x hx
    · simp [dedup_loop, hk] at hx
      rcases hx with rfl | hx
      · exact hk
      · intro hxs
        exact (ih (k :: seen) x hx) (List.mem_cons_of_mem k hxs)

theorem dedup_loop_nodup : ∀ (l seen : List String), (dedup_loop l seen).Nodup := by
  intro l
  induction l with
  | nil => intro seen; simp [dedup_loop]
  | cons k t ih =>
    intro seen
    by_cases hk : k ∈ seen
    · simpa [dedup_loop, hk] using ih seen
    · simp only [dedup_loop, hk, if_neg, ite_false]
      refine List.nodup_cons.mpr ⟨?_, ih (k :: seen)⟩
      intro hmem
      exact (dedup_loop_mem_not_seen t (k :: seen) k hmem) (List.mem_cons_self k seen)

theorem dedup_loop_subset :
    ∀ (l seen : List String) (x : String), x ∈ dedup_loop l seen → x ∈ l := by
  intro l
  induction l with
  | nil => intro seen x hx; simp [dedup_loop] at hx
  | cons k t ih =>
    intro seen x hx
    by_cases hk : k ∈ seen
    · simp [dedup_loop, hk] at hx
      exact List.mem_cons_of_mem k (ih seen x hx)
    · simp [dedup_loop, hk] at hx
      rcases hx with rfl | hx
      · exact List.mem_cons_self x t
      · exact List.mem_cons_of_mem k (ih (k :: seen) x hx)

theorem dedup_first_nodup (l : List String) : (dedup_first l).Nodup :=
  dedup_loop_nodup l []

theorem dedup_first_subset (l : List String) : dedup_first l ⊆ l := by
  intro x hx
  exact dedup_loop_subset l [] x hx

/-! ### Image model -/

/-- A decoded PIL image: the declared color `mode` string and the pixel
array as rows of pixels, each pixel a list of channel values (0-255). -/
structure Img where
  mode : String
  px : List (List (List Nat))
deriving Repr, DecidableEq

/-- PIL `image.size` height: number of pixel rows. -/
def Img.height (i : Img) : Nat := i.px.length

/-- PIL `image.size` width: length of the first pixel row. -/
def Img.width (i : Img) : Nat := (i.px.head?.map List.length).getD 0

/-- Number of channels of the array (`img_array.shape[2]`): length of the
first pixel. -/
def Img.nch (i : Img) : Nat := ((i.px.head?.bind List.head?).map List.length).getD 0

/-- Rank of `numpy.array(image)` for a PIL image of the given mode: the
single-channel modes L, 1, I, F and the palette mode P yield a 2-D array,
all other modes yield a 3-D array. -/
def Img.ndim (i : Img) : Nat :=
  if i.mode = "L" ∨ i.mode = "1" ∨ i.mode = "I" ∨ i.mode = "F" ∨ i.mode = "P" then 2 else 3

/-- All entries of every pixel of the image are equal within that pixel:
the per-channel values are identical everywhere. -/
def ChannelsUniform (i : Img) : Prop :=
  ∀ row ∈ i.px, ∀ p ∈ row, ∀ a ∈ p, ∀ b ∈ p, a = b

instance (i : Img) : Decidable (ChannelsUniform i) := by
  unfold ChannelsUniform
  infer_instance

/-- Mean over all pixels of the absolute difference of channels `c1` and
`c2` (`np.mean(np.abs(ch1 - ch2))` in `_detect_grayscale_image`). -/
def mean_abs_diff (i : Img) (c1 c2 : Nat) : ℚ :=
  let vals := i.px.flatten.map
    (fun p => |((p.getD c1 0 : Nat) : ℚ) - ((p.getD c2 0 : Nat) : ℚ)|)
  vals.sum / (vals.length : ℚ)

/-- `_detect_grayscale_image` (lines 181-224): modes L/LA/1 are grayscale;
RGB/RGBA images with at least three channels are grayscale exactly when the
maximum of the three mean absolute channel differences is below 2.0; every
other mode returns False. -/
def detect_grayscale_image (img : Img) : Bool :=
  if img.mode = "L" ∨ img.mode = "LA" ∨ img.mode = "1" then true
  else if img.mode = "RGB" ∨ img.mode = "RGBA" then
    if 3 ≤ img.nch then
      decide (max (mean_abs_diff img 0 1)
        (max (mean_abs_diff img 0 2) (mean_abs_diff img 1 2)) < 2)
    else false
  else false

/-! ### Filename classification -/

/-- `_classify_by_filename` (lines 379-409), applied by the caller to the
lowercased filename.  Each branch is Python
`any(term in file_name_lower for term in [...])`. -/
def classify_by_filename (file_name_lower : String) : Option String :=
  if sub_of "xray" file_name_lower || sub_of "x-ray" file_name_lower ||
     sub_of "chest" file_name_lower || sub_of "cxr" file_name_lower then
    some "chest_xray"
  else if sub_of "ct" file_name_lower || sub_of "computed_tomography" file_name_lower then
    some "computed_tomography"
  else if sub_of "mri" file_name_lower || sub_of "magnetic_resonance" file_name_lower then
    some "magnetic_resonance"
  else if sub_of "ultrasound" file_name_lower || sub_of "us" file_name_lower ||
          sub_of "echo" file_name_lower then
    some "ultrasound"
  else if sub_of "mammo" file_name_lower || sub_of "mammography" file_name_lower then
    some "mammography"
  else if sub_of "dermato" file_name_lower || sub_of "skin" file_name_lower ||
          sub_of "dermatology" file_name_lower || sub_of "rash" file_name_lower ||
          sub_of "lesion" file_name_lower then
    some "dermatological_image"
  else if sub_of "retina" file_name_lower || sub_of "fundus" file_name_lower ||
          sub_of "ophthalmology" file_name_lower || sub_of "eye" file_name_lower then
    some "retinal_image"
  else if sub_of "pathology" file_name_lower || sub_of "histology" file_name_lower ||
          sub_of "microscopy" file_name_lower || sub_of "biopsy" file_name_lower then
    some "pathological_image"
  else if sub_of "endoscopy" file_name_lower || sub_of "endoscopic" file_name_lower ||
          sub_of "colonoscopy" file_name_lower then
    some "endoscopy"
  else if sub_of "lab" file_name_lower || sub_of "blood" file_name_lower ||
          sub_of "test" file_name_lower || sub_of "result" file_name_lower then
    some "lab_result_document"
  else if sub_of "report" file_name_lower || sub_of "discharge" file_name_lower ||
          sub_of "summary" file_name_lower then
    some "medical_document"
  else none

/-! ### Detailed image characteristics (grayscale branch) -/

/-- Intensity statistics of the flattened array computed by
`_analyze_detailed_image_characteristics` with `numpy` (lines 443-450).
They are inputs of the embedding because `np.std` is a square root and so
irrational in general; the threshold logic built on them is transcribed
from the source. -/
structure GrayStats where
  mean_intensity : ℚ
  std_intensity : ℚ
  min_intensity : ℚ
  max_intensity : ℚ
deriving Repr, DecidableEq

/-- `characteristics['contrast_ratio']` (line 449):
`np.std / np.mean` when the mean is positive, else 0. -/
def contrast_value (s : GrayStats) : ℚ :=
  if 0 < s.mean_intensity then s.std_intensity / s.mean_intensity else 0

/-- Observations of a grayscale image feeding
`_analyze_detailed_image_characteristics`: the intensity statistics, the
histogram bimodality flag (`_analyze_intensity_distribution`), edge density
(`_calculate_edge_density`, thresholded at half the standard deviation) and
texture complexity (`_calculate_texture_complexity`). -/
structure GrayObs where
  stats : GrayStats
  has_bimodal : Bool
  edge_density : ℚ
  texture_complexity : ℚ
deriving Repr, DecidableEq

/-- The characteristics dictionary entries used by
`_classify_grayscale_medical_image`. -/
structure GrayChars where
  has_high_contrast : Bool
  has_dark_background : Bool
  has_bright_regions : Bool
  edge_density : ℚ
  texture_complexity : ℚ
  has_bimodal : Bool
deriving Repr, DecidableEq

/-- Lines 453-457 of `_analyze_detailed_image_characteristics`:
`has_high_contrast = contrast_ratio > 0.5`,
`has_dark_background = mean_intensity < 100`,
`has_bright_regions = max_intensity > 200`. -/
def mk_gray_chars (g : GrayObs) : GrayChars :=
  { has_high_contrast := decide (contrast_value g.stats > 1/2)
    has_dark_background := decide (g.stats.mean_intensity < 100)
    has_bright_regions := decide (g.stats.max_intensity > 200)
    edge_density := g.edge_density
    texture_complexity := g.texture_complexity
    has_bimodal := g.has_bimodal }

/-- `_classify_grayscale_medical_image` (lines 631-678).  `ar` is the
aspect ratio `width / height` computed by the caller. -/
def classify_grayscale_medical_image (width height : Nat) (ar : ℚ) (c : GrayChars) : String :=
  if (1000 < width ∨ 1000 < height) ∧ c.has_high_contrast ∧ c.has_dark_background then
    if ar > 11/10 then "chest_xray"
    else if 4/5 ≤ ar ∧ ar ≤ 6/5 then "radiological_scan"
    else "medical_radiograph"
  else if (512 ≤ width ∧ 512 ≤ height) ∧ c.has_bimodal then
    if 4/5 ≤ ar ∧ ar ≤ 6/5 then
      if c.edge_density > 1/10 then "computed_tomography"
      else "magnetic_resonance"
    else "radiological_scan"
  else if c.texture_complexity > 1 ∧ ¬ c.has_high_contrast then "ultrasound"
  else if width < 512 ∨ height < 512 then
    if c.has_high_contrast then "medical_radiograph" else "clinical_photograph"
  else "medical_radiograph"

/-! ### Color-branch classification -/

/-- Observations of a color image feeding `_classify_color_medical_image`:
the skin-tone likelihood from `_analyze_skin_tone_likelihood` and the
results of the four specialty predicates
(`_has_dermatological_characteristics`,
`_has_ophthalmological_characteristics` which samples the image at 16
angles with `np.cos`/`np.sin`, `_has_pathological_characteristics`,
`_has_endoscopic_characteristics`, `_has_document_characteristics`). -/
structure ColorObs where
  skin_tone_likelihood : ℚ
  derm_chars : Bool
  ophth_chars : Bool
  patho_chars : Bool
  endo_chars : Bool
  doc_chars : Bool
deriving Repr, DecidableEq

/-- `_classify_color_medical_image` (lines 680-724). -/
def classify_color_medical_image (width height : Nat) (c : ColorObs) : String :=
  if c.skin_tone_likelihood > 3/10 then
    if c.derm_chars then "dermatological_image" else "clinical_photograph"
  else if c.ophth_chars then "retinal_image"
  else if c.patho_chars then "pathological_image"
  else if c.endo_chars then "endoscopy"
  else if 1500 < width ∨ 1500 < height then "high_resolution_clinical_image"
  else if c.doc_chars then "medical_document"
  else "clinical_photograph"

/-- The per-image content observations used by the heuristic classifier. -/
structure ContentObs where
  gray : GrayObs
  color : ColorObs
deriving Repr, DecidableEq

/-- `_classify_by_image_content` (lines 411-432): dispatch on the enhanced
grayscale detection. -/
def classify_by_image_content (img : Img) (o : ContentObs) : String :=
  if detect_grayscale_image img then
    classify_grayscale_medical_image img.width img.height
      ((img.width : ℚ) / (img.height : ℚ)) (mk_gray_chars o.gray)
  else
    classify_color_medical_image img.width img.height o.color

/-- `_classify_with_medmnist` (lines 325-351): a placeholder that always
returns None (line 347), with exceptions also mapped to None. -/
def classify_with_medmnist (_img : Img) : Option String := none

/-- `_classify_with_enhanced_heuristics` (lines 353-377): the filename
override, then content analysis. -/
def classify_with_enhanced_heuristics (img : Img) (file_name : String) (o : ContentObs) : String :=
  match classify_by_filename (str_lower file_name) with
  | some t => t
  | none => classify_by_image_content img o

/-- `_classify_medical_image_type` (lines 300-323): the MedMNIST model is a
placeholder returning None, so classification always falls through to the
enhanced heuristics. -/
def classify_medical_image_type (img : Img) (file_name : String) (o : ContentObs) : String :=
  match classify_with_medmnist img with
  | some r => r
  | none => classify_with_enhanced_heuristics img file_name o

/-! ### Pathological indicator analysis -/

/-- The `pathological_analysis` dictionary shape shared by all
sub-analyzers (lines 766-772). -/
structure PathologicalAnalysis where
  has_pathological_findings : Bool
  pathological_confidence : ℚ
  specific_findings : List String
  normal_indicators : List String
  clinical_significance : String
deriving Repr, DecidableEq

/-- Observations of the pixel array made by
`_analyze_dermatological_pathology`: `np.var(img_array)` (exact rational),
the redness score of `_analyze_redness_patterns` and the extreme-region
fractions (both built on `np.std`, a square root), the connected-component
lesion count of `_detect_potential_lesions` (scipy labeling) and the
luminance-gradient tone-variation score of `_analyze_skin_tone_variations`. -/
structure DermObs where
  color_variance : ℚ
  redness_score : ℚ
  very_dark_regions : ℚ
  very_bright_regions : ℚ
  lesion_shapes : Nat
  tone_variation_score : ℚ
deriving Repr, DecidableEq

/-- The `pathological_score` accumulated by
`_analyze_dermatological_pathology` (lines 824-887).  The characteristics
dictionary handed to this analyzer is the one built by
`_analyze_image_characteristics`, which has no `edge_density` or
`texture_complexity` key, so those two `.get(..., 0)` lookups always
return the default 0 and their score branches never fire. -/
def derm_score (o : DermObs) : ℚ :=
  (if o.color_variance > 1500 then 1/4 else 0)
  + (if o.redness_score > 3/10 then 3/10 else 0)
  + (if o.very_dark_regions > 1/20 then 1/4 else 0)
  + (if o.very_bright_regions > 1/20 then 1/4 else 0)
  + (if (0 : ℚ) > 3/25 then 1/5 else 0)
  + (if (0 : ℚ) > 6/5 then 1/5 else 0)
  + (if 0 < o.lesion_shapes then 1/4 else 0)
  + (if o.tone_variation_score > 2/5 then 1/5 else 0)

/-- The `specific_findings` list accumulated by
`_analyze_dermatological_pathology`, in source order. -/
def derm_specific (o : DermObs) : List String :=
  (if o.color_variance > 1500 then ["color_variation"] else [])
  ++ (if o.redness_score > 3/10 then ["redness_pattern"] else [])
  ++ (if o.very_dark_regions > 1/20 then ["hyperpigmentation_areas"] else [])
  ++ (if o.very_bright_regions > 1/20 then ["hypopigmentation_areas"] else [])
  ++ (if (0 : ℚ) > 3/25 then ["defined_borders"] else [])
  ++ (if (0 : ℚ) > 6/5 then ["texture_irregularity"] else [])
  ++ (if 0 < o.lesion_shapes then ["potential_lesions"] else [])
  ++ (if o.tone_variation_score > 2/5 then ["skin_tone_variation"] else [])

/-- The `normal_indicators` list accumulated by
`_analyze_dermatological_pathology`, in source order; the edge-density and
texture branches always add their normal tags because the defaulted
values 0 fall below the 0.08 and 0.8 thresholds. -/
def derm_normal (o : DermObs) : List String :=
  (if o.color_variance > 1500 then []
   else if o.color_variance < 800 then ["uniform_coloration"] else [])
  ++ (if o.redness_score > 3/10 then []
      else if o.redness_score < 1/10 then ["normal_coloration"] else [])
  ++ (if o.very_dark_regions > 1/20 then []
      else if o.very_dark_regions < 1/100 then ["consistent_pigmentation"] else [])
  ++ (if (0 : ℚ) > 3/25 then []
      else if (0 : ℚ) < 2/25 then ["smooth_texture"] else [])
  ++ (if (0 : ℚ) > 6/5 then []
      else if (0 : ℚ) < 4/5 then ["normal_texture"] else [])
  ++ (if 0 < o.lesion_shapes then [] else ["no_obvious_lesions"])

/-- `_analyze_dermatological_pathology` (lines 795-911): on a non-3-D
array the initial findings dictionary escapes with significance
`skin_documentation`; otherwise the confidence is the score clamped by
`min(1.0, score)` and the tier thresholds 0.4 and 0.25 of lines 892-899
set the flag and significance. -/
def analyze_dermatological_pathology (ndim : Nat) (o : DermObs) : PathologicalAnalysis :=
  if ndim ≠ 3 then
    { has_pathological_findings := false
      pathological_confidence := 0
      specific_findings := []
      normal_indicators := []
      clinical_significance := "skin_documentation" }
  else
    let score := derm_score o
    if score > 2/5 then
      { has_pathological_findings := true
        pathological_confidence := min 1 score
        specific_findings := derm_specific o
        normal_indicators := derm_normal o
        clinical_significance := "condition_monitoring" }
    else if score > 1/4 then
      { has_pathological_findings := true
        pathological_confidence := min 1 score
        specific_findings := derm_specific o
        normal_indicators := derm_normal o
        clinical_significance := "follow_up_recommended" }
    else
      { has_pathological_findings := false
        pathological_confidence := min 1 score
        specific_findings := derm_specific o
        normal_indicators := derm_normal o
        clinical_significance := "routine_skin_documentation" }

/-- `_analyze_radiological_pathology` (lines 1019-1051): its
characteristics dictionary (from `_analyze_image_characteristics`) has no
`edge_density` or `texture_complexity` key, so both `.get(..., 0)` lookups
return 0, the abnormality condition `edge > 0.2 and texture > 2.0` is
always false and the routine screening result is always produced. -/
def analyze_radiological_pathology : PathologicalAnalysis :=
  if (0 : ℚ) > 1/5 ∧ (0 : ℚ) > 2 then
    { has_pathological_findings := false
      pathological_confidence := 3/10
      specific_findings := ["image_complexity"]
      normal_indicators := ["routine_imaging"]
      clinical_significance := "professional_review_recommended" }
  else
    { has_pathological_findings := false
      pathological_confidence := 0
      specific_findings := []
      normal_indicators := ["routine_imaging"]
      clinical_significance := "screening_examination" }

/-- `_analyze_clinical_photo_pathology` (lines 1053-1077): likewise its
characteristics dictionary has no `color_variance` or `edge_density` key,
so the condition `color_variance > 3000 and edge_density > 0.15` on the
defaults 0 is always false and the routine documentation result is always
produced (the `clinical_correlation_recommended` branch is dead). -/
def analyze_clinical_photo_pathology : PathologicalAnalysis :=
  if (0 : ℚ) > 3000 ∧ (0 : ℚ) > 3/20 then
    { has_pathological_findings := false
      pathological_confidence := 1/5
      specific_findings := ["visual_variation"]
      normal_indicators := ["clinical_documentation"]
      clinical_significance := "clinical_correlation_recommended" }
  else
    { has_pathological_findings := false
      pathological_confidence := 0
      specific_findings := []
      normal_indicators := ["clinical_documentation"]
      clinical_significance := "routine_documentation" }

/-- `_analyze_histological_pathology` (lines 1079-1094). -/
def analyze_histological_pathology : PathologicalAnalysis :=
  { has_pathological_findings := true
    pathological_confidence := 4/5
    specific_findings := ["histological_analysis"]
    normal_indicators := []
    clinical_significance := "pathological_examination" }

/-- `_analyze_pathological_indicators` (lines 757-793): dispatch on the
classified medical type, defaulting to the routine-documentation
dictionary of lines 766-772. -/
def analyze_pathological_indicators (medical_type : String) (ndim : Nat)
    (o : DermObs) : PathologicalAnalysis :=
  if medical_type = "dermatological_image" then
    analyze_dermatological_pathology ndim o
  else if medical_type = "chest_xray" ∨ medical_type = "computed_tomography" ∨
          medical_type = "magnetic_resonance" ∨ medical_type = "radiological_scan" then
    analyze_radiological_pathology
  else if medical_type = "clinical_photograph" then
    analyze_clinical_photo_pathology
  else if medical_type = "pathological_image" then
    analyze_histological_pathology
  else
    { has_pathological_findings := false
      pathological_confidence := 0
      specific_findings := []
      normal_indicators := []
      clinical_significance := "routine_documentation" }

/-! ### Filename indicators and relevance score -/

/-- The fixed term list of `_extract_filename_indicators` (lines 1284-1288). -/
def medical_terms : List String :=
  ["xray", "x-ray", "chest", "cxr", "ct", "mri", "ultrasound", "us",
   "mammo", "mammography", "endoscopy", "dermato", "retina", "fundus",
   "pathology", "histology", "microscopy", "radiograph", "scan"]

/-- `_extract_filename_indicators` (lines 1279-1294): the terms literally
contained in the lowercased filename, in table order. -/
def extract_filename_indicators (file_name : String) : List String :=
  medical_terms.filter (fun t => sub_of t (str_lower file_name))

/-- `_calculate_medical_relevance_score` (lines 1296-1317). -/
def calculate_medical_relevance_score (img : Img) (file_name : String)
    (medical_type : String) : ℚ :=
  let score : ℚ := 1/2 + ((extract_filename_indicators file_name).length : ℚ) * (1/10)
  let score := score + (if img.mode = "L" ∨ img.mode = "LA" ∨ img.mode = "1" then 1/5 else 0)
  let score := score + (if 512 ≤ img.width ∧ 512 ≤ img.height then 1/10 else 0)
  let score := score + (if medical_type ≠ "medical_image" then 1/5 else 0)
  min 1 score

/-! ### The full analysis pipeline -/

/-- The analysis dictionary returned by `analyze_medical_image`.  Optional
fields model dictionary keys present only on some paths:
`medical_relevance_score` stands for
`medical_context['medical_relevance_score']` and `pathological` for
`medical_context['pathological_analysis']`. -/
structure Analysis where
  is_dicom : Bool
  medical_type : String
  width : Option Nat
  height : Option Nat
  is_grayscale : Option Bool
  modality : Option String
  analysis_error : Option String
  medical_relevance_score : Option ℚ
  pathological : Option PathologicalAnalysis
deriving Repr, DecidableEq

/-- Metadata of a successfully parsed DICOM dataset (the attributes read
by `_analyze_dicom_image`; `Modality` defaults to the string `Unknown`
when the tag is absent). -/
structure DicomData where
  modality : String
  rows : Nat
  columns : Nat
deriving Repr, DecidableEq

/-- The classifier input: the raw bytes and filename, together with the
outcomes of the external decoders (PIL and pydicom) and the numpy-level
content observations, which are functions of the bytes computed outside
the repository. -/
structure RawFile where
  bytes : List Nat
  name : String
  decoded : Except String Img
  dicomParsed : Except String DicomData
  obs : ContentObs
  derm : DermObs
deriving Repr

/-- Library availability recorded by `__init__` (lines 24-26). -/
structure Env where
  dicom_available : Bool
deriving Repr, DecidableEq

/-- `self.dicom_modalities` (lines 29-51). -/
def dicom_modalities : List (String × String) :=
  [("CR", "computed_radiography"),
   ("CT", "computed_tomography"),
   ("MR", "magnetic_resonance"),
   ("NM", "nuclear_medicine"),
   ("US", "ultrasound"),
   ("XA", "x_ray_angiography"),
   ("RF", "radiofluoroscopy"),
   ("DX", "digital_radiography"),
   ("MG", "mammography"),
   ("IO", "intra_oral_radiography"),
   ("PX", "panoramic_x_ray"),
   ("GM", "general_microscopy"),
   ("SM", "slide_microscopy"),
   ("OT", "other"),
   ("PT", "positron_emission_tomography"),
   ("ES", "endoscopy"),
   ("OP", "ophthalmic_photography"),
   ("OPM", "ophthalmic_mapping"),
   ("OPT", "ophthalmic_tomography"),
   ("IVOCT", "intravascular_optical_coherence_tomography"),
   ("IVUS", "intravascular_ultrasound")]

/-- `self.medical_extensions` (line 54). -/
def medical_extensions : List String := [".dcm", ".dicom", ".ima", ".img"]

/-- The four DICOM magic bytes `DICM`. -/
def dicm_magic : List Nat := [68, 73, 67, 77]

/-- Extension part of `os.path.splitext` for a plain filename (no
directory separators): the suffix starting at the last dot, empty when
there is no dot or when every character before the last dot is a dot
(leading-dot names have no extension). -/
def splitext_ext (name : String) : String :=
  let cs := name.toList
  let rev_after := cs.reverse.takeWhile (fun c => c ≠ '.')
  if rev_after.length = cs.length then ""
  else
    let pre := cs.take (cs.length - rev_after.length - 1)
    if pre.any (fun c => c ≠ '.') then String.mk ('.' :: rev_after.reverse) else ""

/-- `_might_be_dicom` (lines 111-123): a medical extension, or — when the
file is longer than 132 bytes — the `DICM` marker at offset 128. -/
def might_be_dicom (bytes : List Nat) (name : String) : Bool :=
  if str_lower (splitext_ext name) ∈ medical_extensions then true
  else if 132 < bytes.length then decide ((bytes.drop 128).take 4 = dicm_magic)
  else false

/-- `_create_fallback_analysis` (lines 1319-1331). -/
def create_fallback_analysis (_f : RawFile) (error_msg : String) : Analysis :=
  { is_dicom := false
    medical_type := "medical_image"
    width := none
    height := none
    is_grayscale := none
    modality := none
    analysis_error := some error_msg
    medical_relevance_score := some (3/10)
    pathological := none }

/-- `_analyze_standard_medical_image` (lines 226-271): decode with PIL,
run the enhanced grayscale detection, classification, relevance scoring
and pathological analysis; a decode failure produces the fallback
analysis. -/
def analyze_standard_medical_image (f : RawFile) : Analysis :=
  match f.decoded with
  | Except.error e => create_fallback_analysis f e
  | Except.ok img =>
    let mtype := classify_medical_image_type img f.name f.obs
    { is_dicom := false
      medical_type := mtype
      width := some img.width
      height := some img.height
      is_grayscale := some (detect_grayscale_image img)
      modality := none
      analysis_error := none
      medical_relevance_score := some (calculate_medical_relevance_score img f.name mtype)
      pathological := some (analyze_pathological_indicators mtype img.ndim f.derm) }

/-- `_analyze_dicom_image` (lines 125-179): without pydicom, or on a parse
failure, fall back to the standard analysis; on success map the modality
through `dicom_modalities` with default `medical_image`. -/
def analyze_dicom_image (env : Env) (f : RawFile) : Analysis :=
  if env.dicom_available then
    match f.dicomParsed with
    | Except.error _ => analyze_standard_medical_image f
    | Except.ok d =>
      { is_dicom := true
        medical_type := (dicom_modalities.lookup d.modality).getD "medical_image"
        width := some d.columns
        height := some d.rows
        is_grayscale := none
        modality := some d.modality
        analysis_error := none
        medical_relevance_score := none
        pathological := none }
  else analyze_standard_medical_image f

/-- `analyze_medical_image` (lines 86-109): try the DICOM path when the
file might be DICOM and keep its result only when it is a real DICOM
analysis; otherwise run the standard analysis. -/
def analyze_medical_image (env : Env) (f : RawFile) : Analysis :=
  if might_be_dicom f.bytes f.name then
    let d := analyze_dicom_image env f
    if d.is_dicom then d else analyze_standard_medical_image f
  else analyze_standard_medical_image f

/-! ### Keyword generation and deduplication -/

/-- `keyword_priorities` of `_deduplicate_and_prioritize_keywords`
(lines 1721-1746). -/
def keyword_priorities : List (String × Nat) :=
  [("dermatology", 5), ("radiology", 5), ("pathology", 5), ("ophthalmology", 5),
   ("skin lesion", 5), ("chest imaging", 5), ("diagnostic imaging", 5),
   ("condition_monitoring", 5), ("follow_up_recommended", 5),
   ("thoracic imaging", 5), ("pulmonary imaging", 5), ("cardiac imaging", 5),
   ("respiratory system", 5),
   ("clinical assessment", 4), ("medical review", 4), ("professional assessment", 4),
   ("skin documentation", 4), ("medical monitoring", 4),
   ("pigmentation changes", 4), ("color irregularity", 4),
   ("health screening", 4), ("preventive care", 4),
   ("medical imaging", 3), ("clinical documentation", 3), ("skin imaging", 3),
   ("screening examination", 3),
   ("high resolution", 2), ("grayscale imaging", 2), ("color imaging", 2),
   ("routine care", 2), ("documentation", 2), ("routine imaging", 2),
   ("standard imaging", 2),
   ("routine", 1), ("standard", 1), ("normal", 1), ("baseline", 1)]

/-- `keyword_priorities.get(k, 0)`. -/
def keyword_priority (k : String) : Nat :=
  (keyword_priorities.lookup k).getD 0

/-- `redundancy_groups` of `_deduplicate_and_prioritize_keywords`
(lines 1749-1757), in dictionary insertion order. -/
def redundancy_groups : List (String × List String) :=
  [("resolution", ["high resolution", "resolution", "imaging quality"]),
   ("routine_terms", ["routine", "routine care", "routine examination", "routine imaging",
                      "standard imaging", "baseline documentation"]),
   ("imaging_type", ["grayscale imaging", "color imaging", "medical imaging",
                     "clinical imaging"]),
   ("documentation", ["documentation", "clinical documentation", "medical documentation"]),
   ("skin_health", ["skin health", "skin documentation", "skin imaging"]),
   ("normal_terms", ["normal", "healthy", "baseline", "standard"]),
   ("examination_type", ["screening examination", "routine examination", "health screening",
                         "preventive care"])]

/-- Python `max(candidates, key=priority)`: the first element of maximal
priority (subsequent ties do not replace an earlier maximum). -/
def max_by_priority : List String → String
  | [] => ""
  | h :: t => t.foldl (fun best k =>
      if keyword_priority best < keyword_priority k then k else best) h

/-- Step 2 of `_deduplicate_and_prioritize_keywords` (lines 1762-1786):
walk the unique keywords; a keyword in no redundancy group is kept; the
first keyword of each group triggers keeping only the highest-priority
group member present in `unique`, and later members of a used group are
dropped. -/
def step2_go (unique : List String) : List String → List String → List String
  | [], _ => []
  | k :: t, used =>
    match redundancy_groups.find? (fun g => g.2.contains k) with
    | none => k :: step2_go unique t used
    | some g =>
      if used.contains g.1 then step2_go unique t used
      else
        let cands := unique.filter (fun x => g.2.contains x)
        if cands.isEmpty then step2_go unique t used
        else max_by_priority cands :: step2_go unique t (g.1 :: used)

/-- `_deduplicate_and_prioritize_keywords` (lines 1712-1810):
(1) exact-duplicate removal keeping first occurrences, (2) the
redundancy-group collapse, (2.5) the substring-redundancy filter dropping
a keyword contained in a different keyword of greater-or-equal priority,
(3) `sorted(set(...), key=priority, reverse=True)` modelled as a stable
insertion sort of the deduplicated list by descending priority, and
(4) truncation to 15 keywords.  `substring_redundant` is the inner loop of
step 2.5 (lines 1792-1798): the keyword is dropped when some different
keyword of the list contains it with greater-or-equal priority. -/
def substring_redundant (final1 : List String) (kw : String) : Bool :=
  final1.any (fun other =>
    kw ≠ other && sub_of kw other &&
    decide (keyword_priority kw ≤ keyword_priority other))

def deduplicate_and_prioritize_keywords (keywords : List String) : List String :=
  let unique := dedup_first keywords
  let final1 := step2_go unique unique []
  let filtered := final1.filter (fun kw => ! substring_redundant final1 kw)
  let sorted := List.insertionSort
    (fun a b => keyword_priority b ≤ keyword_priority a) (dedup_first filtered)
  sorted.take 15

/-- `base_type_keywords` of `_generate_medical_keywords`
(lines 1565-1578), looked up with default
`['medical imaging', 'clinical documentation']`. -/
def base_type_keywords (t : String) : List String :=
  ((([("chest_xray", ["radiology", "pulmonary imaging", "cardiac imaging",
                      "thoracic imaging", "respiratory system"]),
      ("computed_tomography", ["radiology", "cross-sectional imaging",
                               "diagnostic imaging", "CT imaging"]),
      ("magnetic_resonance", ["radiology", "soft tissue imaging", "MRI imaging",
                              "diagnostic imaging"]),
      ("ultrasound", ["sonography", "real-time imaging", "diagnostic ultrasound",
                      "medical imaging"]),
      ("mammography", ["breast imaging", "women\x27s health", "preventive screening"]),
      ("dermatological_image", ["dermatology", "skin imaging", "skin documentation"]),
      ("retinal_image", ["ophthalmology", "eye examination", "retinal imaging",
                         "vision assessment"]),
      ("pathological_image", ["pathology", "histology", "tissue analysis", "microscopy"]),
      ("endoscopy", ["gastroenterology", "internal examination", "endoscopic imaging"]),
      ("clinical_photograph", ["clinical documentation", "medical photography"]),
      ("medical_document", ["clinical documentation", "medical record",
                            "patient information"]),
      ("lab_result_document", ["laboratory", "diagnostic testing", "clinical chemistry"])]
    : List (String × List String)).lookup t).getD
    ["medical imaging", "clinical documentation"])

/-- `significance_keywords` of `_generate_medical_keywords`
(lines 1602-1610); a significance outside the table adds nothing. -/
def significance_keywords (s : String) : List String :=
  ((([("routine_documentation", ["routine care", "documentation"]),
      ("routine_skin_documentation", ["skin health", "routine dermatology"]),
      ("screening_examination", ["preventive care", "health screening"]),
      ("condition_monitoring", ["medical monitoring", "follow-up care"]),
      ("follow_up_recommended", ["clinical follow-up", "medical review"]),
      ("professional_review_recommended", ["professional assessment", "clinical evaluation"]),
      ("pathological_examination", ["diagnostic analysis", "pathological assessment"])]
    : List (String × List String)).lookup s).getD [])

/-- `normal_keyword_mapping` of `_generate_medical_keywords`
(lines 1617-1625). -/
def normal_keyword_mapping : List (String × List String) :=
  [("uniform_coloration", ["normal pigmentation", "natural skin appearance"]),
   ("consistent_pigmentation", ["baseline skin documentation", "consistent skin appearance"]),
   ("smooth_texture", ["normal skin texture", "natural skin surface"]),
   ("normal_texture", ["normal skin texture"]),
   ("no_obvious_lesions", ["clear skin appearance", "no visible abnormalities"]),
   ("routine_imaging", ["standard imaging", "routine examination"]),
   ("clinical_documentation", ["medical documentation"])]

/-- `_get_dermatological_pathology_keywords` (lines 1651-1672). -/
def get_dermatological_pathology_keywords (specific : List String) : List String :=
  let table : List (String × List String) :=
    [("color_variation", ["pigmentation changes", "color irregularity"]),
     ("dark_regions", ["hyperpigmentation", "dark spots"]),
     ("bright_regions", ["hypopigmentation", "light spots"]),
     ("defined_borders", ["lesion borders", "skin lesion"]),
     ("texture_irregularity", ["skin texture changes", "surface irregularity"]),
     ("potential_lesions", ["skin lesion", "dermatological finding"])]
  let base := specific.flatMap (fun f => (table.lookup f).getD [])
  if base.isEmpty then base
  else base ++ ["dermatological condition", "skin condition monitoring"]

/-- `_get_radiological_pathology_keywords` (lines 1674-1691). -/
def get_radiological_pathology_keywords (specific : List String) : List String :=
  let table : List (String × List String) :=
    [("image_complexity", ["complex imaging", "detailed examination"]),
     ("abnormal_density", ["density changes", "radiological finding"]),
     ("structural_changes", ["anatomical changes", "structural abnormality"])]
  let base := specific.flatMap (fun f => (table.lookup f).getD [])
  if base.isEmpty then base
  else base ++ ["diagnostic imaging", "radiological assessment"]

/-- `_get_clinical_pathology_keywords` (lines 1693-1710). -/
def get_clinical_pathology_keywords (specific : List String) : List String :=
  let table : List (String × List String) :=
    [("visual_variation", ["clinical variation", "visual changes"]),
     ("color_changes", ["appearance changes", "clinical finding"]),
     ("structural_changes", ["anatomical variation", "clinical observation"])]
  let base := specific.flatMap (fun f => (table.lookup f).getD [])
  if base.isEmpty then base
  else base ++ ["clinical assessment", "medical observation"]

/-- Default pathological-analysis values of the `.get(...)` lookups in
`_generate_medical_keywords` (lines 1559-1562). -/
def default_pathological : PathologicalAnalysis :=
  { has_pathological_findings := false
    pathological_confidence := 0
    specific_findings := []
    normal_indicators := []
    clinical_significance := "routine_documentation" }

/-- `_generate_medical_keywords` (lines 1547-1649): base vocabulary by
type, condition-specific or routine keywords, clinical-significance
keywords, mapped normal indicators, DICOM keywords, quality keywords and
the grayscale/color tag, then comprehensive deduplication. -/
def generate_medical_keywords (medical_type : String) (a : Analysis) : List String :=
  let p := a.pathological.getD default_pathological
  let keywords := base_type_keywords medical_type
  let keywords := keywords ++
    (if p.has_pathological_findings then
      if medical_type = "dermatological_image" then
        get_dermatological_pathology_keywords p.specific_findings
      else if medical_type = "chest_xray" ∨ medical_type = "computed_tomography" ∨
              medical_type = "magnetic_resonance" ∨ medical_type = "radiological_scan" then
        get_radiological_pathology_keywords p.specific_findings
      else if medical_type = "clinical_photograph" then
        get_clinical_pathology_keywords p.specific_findings
      else []
    else
      if medical_type = "dermatological_image" then
        ["baseline skin documentation", "natural skin appearance", "skin documentation"]
      else if medical_type = "chest_xray" ∨ medical_type = "computed_tomography" ∨
              medical_type = "magnetic_resonance" ∨ medical_type = "radiological_scan" then
        ["routine imaging", "screening examination", "preventive care"]
      else if medical_type = "clinical_photograph" then
        ["routine documentation", "clinical photography", "medical record"]
      else [])
  let keywords := keywords ++ significance_keywords p.clinical_significance
  let keywords := keywords ++
    p.normal_indicators.flatMap (fun i => (normal_keyword_mapping.lookup i).getD [])
  let keywords := keywords ++
    (if a.is_dicom then
      ["DICOM", "medical imaging standard", "digital imaging"] ++
      (match a.modality with
       | some m => if m ≠ "" then [m ++ " imaging"] else []
       | none => [])
    else [])
  let keywords := keywords ++
    (if 1024 ≤ a.width.getD 0 ∨ 1024 ≤ a.height.getD 0 then ["high resolution"] else [])
  let keywords := keywords ++
    (if a.is_grayscale.getD false then ["grayscale imaging"] else ["color imaging"])
  deduplicate_and_prioritize_keywords keywords

/-! ### The closed medical-type set named by the specification -/

/-- The fixed closed set of `medical_type` tags listed in the spec data
model. -/
def spec_medical_type_set : List String :=
  ["chest_xray", "computed_tomography", "magnetic_resonance", "ultrasound", "mammography",
   "dermatological_image", "retinal_image", "pathological_image", "endoscopy",
   "clinical_photograph", "medical_radiograph", "radiological_scan",
   "high_resolution_clinical_image", "medical_document", "lab_result_document",
   "medical_image"]

/-- The seven `clinical_significance` values listed in the spec data
model. -/
def spec_significance_set : List String :=
  ["routine_documentation", "routine_skin_documentation", "screening_examination",
   "condition_monitoring", "follow_up_recommended", "professional_review_recommended",
   "pathological_examination"]

/-! ### Concrete inputs used by witnesses and counterexamples -/

/-- Environment with pydicom importable. -/
def envT : Env := ⟨true⟩

/-- Neutral content observations. -/
def obs0 : ContentObs :=
  ⟨⟨⟨0, 0, 0, 0⟩, false, 0, 0⟩, ⟨0, false, false, false, false, false⟩⟩

/-- Neutral dermatological observations. -/
def dermObs0 : DermObs := ⟨0, 0, 0, 0, 0, 0⟩

/-- A 1-by-1 color photograph with a generic filename, skin-tone content
and uniformly benign dermatological observations. -/
def fPhoto : RawFile :=
  { bytes := [1]
    name := "photo.png"
    decoded := Except.ok ⟨"RGB", [[[200, 150, 120]]]⟩
    dicomParsed := Except.error "not dicom"
    obs := ⟨⟨⟨0, 0, 0, 0⟩, false, 0, 0⟩, ⟨1/2, true, false, false, false, false⟩⟩
    derm := ⟨500, 0, 0, 0, 0, 0⟩ }

/-- A DICOM file with modality CR (computed radiography). -/
def fCR : RawFile :=
  { bytes := List.replicate 128 0 ++ dicm_magic ++ [0]
    name := "scan1.dcm"
    decoded := Except.error "not an image"
    dicomParsed := Except.ok ⟨"CR", 512, 512⟩
    obs := obs0
    derm := dermObs0 }

/-- A DICOM file whose filename contains `chest` but whose modality is CT. -/
def fChestDcm : RawFile :=
  { bytes := List.replicate 133 0
    name := "chest.dcm"
    decoded := Except.ok ⟨"L", [[[7]]]⟩
    dicomParsed := Except.ok ⟨"CT", 512, 512⟩
    obs := obs0
    derm := dermObs0 }

/-- Corrupted non-image bytes with filename `broken.jpg`. -/
def fBroken : RawFile :=
  { bytes := [1, 2, 3]
    name := "broken.jpg"
    decoded := Except.error "cannot identify image file"
    dicomParsed := Except.error "invalid dicom"
    obs := obs0
    derm := dermObs0 }

/-- A grayscale (mode L) image whose filename names skin. -/
def fSkin : RawFile :=
  { bytes := [0]
    name := "skin.png"
    decoded := Except.ok ⟨"L", [[[7]]]⟩
    dicomParsed := Except.error "not dicom"
    obs := obs0
    derm := dermObs0 }

/-- An ordinary decodable image whose filename contains `chest`. -/
def fChestJpg : RawFile :=
  { bytes := [9]
    name := "chest.jpg"
    decoded := Except.ok ⟨"RGB", [[[1, 2, 3]]]⟩
    dicomParsed := Except.error "not dicom"
    obs := obs0
    derm := dermObs0 }

/-! ### Helper lemmas on the classifiers -/

theorem lookup_getD_mem {β : Type} (l : List (String × β)) (k : String) (d : β) :
    (l.lookup k).getD d = d ∨ (l.lookup k).getD d ∈ l.map Prod.snd := by
  induction l with
  | nil => simp [List.lookup]
  | cons h t ih =>
    rcases h with ⟨a, b⟩
    cases hk : (k == a) with
    | true => simp [List.lookup, hk]
    | false =>
      simp only [List.lookup, hk, List.map_cons]
      rcases ih with h1 | h1
      · exact Or.inl h1
      · exact Or.inr (List.mem_cons_of_mem _ h1)

set_option maxHeartbeats 2000000 in
theorem classify_by_filename_mem (s r : String)
    (h : classify_by_filename s = some r) : r ∈ spec_medical_type_set := by
  unfold classify_by_filename at h
  split_ifs at h <;> simp only [Option.some.injEq] at h
  all_goals (subst h; decide)

theorem classify_grayscale_mem (w h : Nat) (ar : ℚ) (c : GrayChars) :
    classify_grayscale_medical_image w h ar c ∈ spec_medical_type_set := by
  unfold classify_grayscale_medical_image
  split_ifs <;> simp [spec_medical_type_set]

theorem classify_color_mem (w h : Nat) (c : ColorObs) :
    classify_color_medical_image w h c ∈ spec_medical_type_set := by
  unfold classify_color_medical_image
  split_ifs <;> simp [spec_medical_type_set]

theorem classify_heuristics_mem (img : Img) (name : String) (o : ContentObs) :
    classify_with_enhanced_heuristics img name o ∈ spec_medical_type_set := by
  unfold classify_with_enhanced_heuristics
  rcases h : classify_by_filename (str_lower name) with _ | t
  · simp only [h]
    unfold classify_by_image_content
    split_ifs
    · exact classify_grayscale_mem _ _ _ _
    · exact classify_color_mem _ _ _
  · simp only [h]
    exact classify_by_filename_mem _ _ h

theorem standard_medical_type_mem (f : RawFile) :
    (analyze_standard_medical_image f).medical_type ∈ spec_medical_type_set := by
  unfold analyze_standard_medical_image
  rcases hd : f.decoded with e | img
  · simp [create_fallback_analysis, spec_medical_type_set]
  · simpa [classify_medical_image_type, classify_with_medmnist] using
      classify_heuristics_mem img f.name f.obs

theorem standard_not_dicom (f : RawFile) :
    (analyze_standard_medical_image f).is_dicom = false := by
  unfold analyze_standard_medical_image
  rcases hd : f.decoded with e | img <;> simp [create_fallback_analysis]

theorem dicom_medical_type_mem (env : Env) (f : RawFile) :
    ((analyze_dicom_image env f).is_dicom = false →
      (analyze_dicom_image env f).medical_type ∈ spec_medical_type_set) ∧
    (analyze_dicom_image env f).medical_type ∈
      spec_medical_type_set ++ dicom_modalities.map Prod.snd := by
  unfold analyze_dicom_image
  split_ifs with hav
  · rcases hp : f.dicomParsed with e | d
    · exact ⟨fun _ => standard_medical_type_mem f,
        List.mem_append_left _ (standard_medical_type_mem f)⟩
    · constructor
      · intro hfalse; simp at hfalse
      · rcases lookup_getD_mem dicom_modalities d.modality "medical_image" with h | h
        · simp only [Analysis.medical_type, h]
          exact List.mem_append_left _ (by decide)
        · exact List.mem_append_right _ h
  · exact ⟨fun _ => standard_medical_type_mem f,
      List.mem_append_left _ (standard_medical_type_mem f)⟩

/-- Claim C1, counterexample: a DICOM file with modality CR is analyzed on
the DICOM path to `medical_type = "computed_radiography"`, which is not in
the fixed closed set of the spec. -/
theorem c1_counterexample :
    (analyze_medical_image envT fCR).medical_type = "computed_radiography" ∧
    "computed_radiography" ∉ spec_medical_type_set := by
  constructor
  · decide
  · decide

/-- Claim C1 (amended): on the heuristic and fallback paths (whenever the
result is not a DICOM analysis) the `medical_type` belongs to the fixed
closed set of the spec; on the DICOM path it belongs to the union of that
set with the 21 DICOM modality category names of `dicom_modalities`, which
contains tags outside the fixed set such as `computed_radiography`. -/
theorem c1_medical_type_sets (env : Env) (f : RawFile) :
    ((analyze_medical_image env f).is_dicom = false →
      (analyze_medical_image env f).medical_type ∈ spec_medical_type_set) ∧
    (analyze_medical_image env f).medical_type ∈
      spec_medical_type_set ++ dicom_modalities.map Prod.snd := by
  unfold analyze_medical_image
  by_cases hm : might_be_dicom f.bytes f.name
  · by_cases hd : (analyze_dicom_image env f).is_dicom
    · simpa [hm, hd] using dicom_medical_type_mem env f
    · simp only [hm, if_true, hd]
      simp only [Bool.false_eq_true, if_false]
      exact ⟨fun _ => standard_medical_type_mem f,
        List.mem_append_left _ (standard_medical_type_mem f)⟩
  · simp only [hm, if_false]
    exact ⟨fun _ => standard_medical_type_mem f,
      List.mem_append_left _ (standard_medical_type_mem f)⟩

/-- Witness for C1: at the concrete non-DICOM input `fPhoto` the analysis
is not DICOM and its medical type lies in the fixed closed set. -/
theorem c1_medical_type_sets_witness :
    (analyze_medical_image envT fPhoto).medical_type ∈ spec_medical_type_set :=
  (c1_medical_type_sets envT fPhoto).1 (by decide)

/-- Claim C5: undecodable bytes without the DICOM marker and without a
medical extension raise no exception and produce the fallback analysis
with the error text, `medical_type = "medical_image"` and
`medical_relevance_score = 0.3`. -/
theorem c5_fallback_analysis (env : Env) (f : RawFile) (e : String)
    (hdec : f.decoded = Except.error e)
    (hext : str_lower (splitext_ext f.name) ∉ medical_extensions)
    (hmagic : (f.bytes.drop 128).take 4 ≠ dicm_magic) :
    (analyze_medical_image env f).analysis_error = some e ∧
    (analyze_medical_image env f).medical_type = "medical_image" ∧
    (analyze_medical_image env f).medical_relevance_score = some (3/10) := by
  have hmb : might_be_dicom f.bytes f.name = false := by
    unfold might_be_dicom
    rw [if_neg hext]
    split_ifs with h2
    · simp [hmagic]
    · rfl
  simp [analyze_medical_image, hmb, analyze_standard_medical_image, hdec,
    create_fallback_analysis]

/-- Witness for C5: the corrupted file `broken.jpg`. -/
theorem c5_fallback_analysis_witness :
    (analyze_medical_image envT fBroken).analysis_error =
      some "cannot identify image file" ∧
    (analyze_medical_image envT fBroken).medical_type = "medical_image" ∧
    (analyze_medical_image envT fBroken).medical_relevance_score = some (3/10) :=
  c5_fallback_analysis envT fBroken "cannot identify image file"
    (by rfl) (by decide) (by decide)

/-- The DICOM branch of `analyze_medical_image` fires and keeps its
result. -/
def dicom_path_taken (env : Env) (f : RawFile) : Bool :=
  might_be_dicom f.bytes f.name && (analyze_dicom_image env f).is_dicom

/-- Claim C7, counterexample: the file `chest.dcm` whose DICOM metadata
carries modality CT is classified `computed_tomography` although its
filename contains `chest` — the DICOM path takes precedence over the
filename override. -/
theorem c7_counterexample :
    sub_of "chest" (str_lower fChestDcm.name) = true ∧
    (analyze_medical_image envT fChestDcm).medical_type = "computed_tomography" ∧
    "computed_tomography" ≠ "chest_xray" := by
  refine ⟨by decide, by decide, by decide⟩

/-- Claim C7 (amended): for every input that decodes as an image and does
not take the DICOM branch, a filename containing `chest` or `cxr`
(case-insensitive) forces `medical_type = "chest_xray"` regardless of
pixel content. -/
theorem c7_filename_override (env : Env) (f : RawFile) (img : Img)
    (hdec : f.decoded = Except.ok img)
    (hname : sub_of "chest" (str_lower f.name) = true ∨ sub_of "cxr" (str_lower f.name) = true)
    (hnd : dicom_path_taken env f = false) :
    (analyze_medical_image env f).medical_type = "chest_xray" := by
  have hfn : classify_by_filename (str_lower f.name) = some "chest_xray" := by
    unfold classify_by_filename
    rcases hname with h | h <;> simp [h]
  have hstd : (analyze_standard_medical_image f).medical_type = "chest_xray" := by
    unfold analyze_standard_medical_image
    rw [hdec]
    simp [classify_medical_image_type, classify_with_medmnist,
      classify_with_enhanced_heuristics, hfn]
  unfold analyze_medical_image
  by_cases hm : might_be_dicom f.bytes f.name
  · have hd : (analyze_dicom_image env f).is_dicom = false := by
      unfold dicom_path_taken at hnd
      simpa [hm] using hnd
    simp [hm, hd, hstd]
  · simp [hm, hstd]

/-- Witness for C7: the decodable image `chest.jpg` away from the DICOM
branch is classified `chest_xray`. -/
theorem c7_filename_override_witness :
    (analyze_medical_image envT fChestJpg).medical_type = "chest_xray" :=
  c7_filename_override envT fChestJpg ⟨"RGB", [[[1, 2, 3]]]⟩
    (by rfl) (Or.inl (by decide)) (by decide)

/-- Claim C10: filename matching is raw substring containment, so any
lowercased filename containing the character pair `ct` while containing
none of `xray`, `x-ray`, `chest`, `cxr` is classified
`computed_tomography` by the filename override. -/
theorem c10_ct_substring (s : String)
    (hct : sub_of "ct" s = true)
    (h1 : sub_of "xray" s = false) (h2 : sub_of "x-ray" s = false)
    (h3 : sub_of "chest" s = false) (h4 : sub_of "cxr" s = false) :
    classify_by_filename s = some "computed_tomography" := by
  unfold classify_by_filename
  simp [hct, h1, h2, h3, h4]

/-- Witness for C10: the innocuous filename `picture.jpg` contains `ct`
and is classified as computed tomography. -/
theorem c10_ct_substring_witness :
    classify_by_filename "picture.jpg" = some "computed_tomography" :=
  c10_ct_substring "picture.jpg" (by decide) (by decide) (by decide)
    (by decide) (by decide)

/-- Claim C8, counterexample: a grayscale image of width exactly 1000
(height 800, aspect ratio 1.25 > 1.1) with contrast ratio 0.6 > 0.5 and
mean intensity 50 < 100 is classified `medical_radiograph`, not
`chest_xray`: the resolution test of the code is strict (`width > 1000 or
height > 1000`), so "at least 1000 pixels" is not enough. -/
theorem c8_counterexample :
    1000 ≤ 1000 ∧
    (mk_gray_chars ⟨⟨50, 30, 0, 220⟩, false, 0, 0⟩).has_high_contrast = true ∧
    (mk_gray_chars ⟨⟨50, 30, 0, 220⟩, false, 0, 0⟩).has_dark_background = true ∧
    (5 : ℚ)/4 > 11/10 ∧
    classify_grayscale_medical_image 1000 800 (5/4)
      (mk_gray_chars ⟨⟨50, 30, 0, 220⟩, false, 0, 0⟩) = "medical_radiograph" ∧
    "medical_radiograph" ≠ "chest_xray" := by
  with_unfolding_all decide

/-- Claim C8 (amended): for a grayscale image with width or height
strictly greater than 1000 pixels, contrast ratio above 0.5 and mean
intensity below 100, the classifier returns `chest_xray` when the aspect
ratio exceeds 1.1, `radiological_scan` when it is between 0.8 and 1.1
(the upper end 1.2 of the near-square band is preempted by the chest-xray
case), and `medical_radiograph` otherwise. -/
theorem c8_xray_branch (w h : Nat) (g : GrayObs) (ar : ℚ)
    (hmean : 0 < g.stats.mean_intensity)
    (hcontrast : 1/2 < g.stats.std_intensity / g.stats.mean_intensity)
    (hdark : g.stats.mean_intensity < 100)
    (hdim : 1000 < w ∨ 1000 < h) :
    (11/10 < ar →
      classify_grayscale_medical_image w h ar (mk_gray_chars g) = "chest_xray") ∧
    (4/5 ≤ ar ∧ ar ≤ 11/10 →
      classify_grayscale_medical_image w h ar (mk_gray_chars g) = "radiological_scan") ∧
    (ar < 4/5 →
      classify_grayscale_medical_image w h ar (mk_gray_chars g) = "medical_radiograph") := by
  have hcv : contrast_value g.stats > 1/2 := by
    unfold contrast_value
    rw [if_pos hmean]
    exact hcontrast
  have h1 : (mk_gray_chars g).has_high_contrast = true := by
    simp only [mk_gray_chars, decide_eq_true_eq]
    exact hcv
  have h2 : (mk_gray_chars g).has_dark_background = true := by
    simp only [mk_gray_chars, decide_eq_true_eq]
    exact hdark
  have hcond : (1000 < w ∨ 1000 < h) ∧
      (mk_gray_chars g).has_high_contrast = true ∧
      (mk_gray_chars g).has_dark_background = true := ⟨hdim, h1, h2⟩
  refine ⟨?_, ?_, ?_⟩ <;> intro har
  · unfold classify_grayscale_medical_image
    rw [if_pos hcond, if_pos har]
  · unfold classify_grayscale_medical_image
    rw [if_pos hcond, if_neg (by exact not_lt.mpr har.2),
      if_pos ⟨har.1, le_trans har.2 (by norm_num)⟩]
  · unfold classify_grayscale_medical_image
    rw [if_pos hcond, if_neg (by intro hgt; linarith),
      if_neg (by intro hband; linarith [hband.1])]

/-- Witness for C8: a 1200-by-800 high-contrast dark grayscale image is
classified as a chest X-ray. -/
theorem c8_xray_branch_witness :
    classify_grayscale_medical_image 1200 800 (3/2)
      (mk_gray_chars ⟨⟨50, 30, 0, 220⟩, false, 0, 0⟩) = "chest_xray" :=
  (c8_xray_branch 1200 800 ⟨⟨50, 30, 0, 220⟩, false, 0, 0⟩ (3/2)
    (by norm_num) (by norm_num) (by norm_num) (Or.inl (by norm_num))).1
    (by norm_num)

/-- Every entry of the channel-difference list of a uniform image with
pixels of length at least 3 is zero. -/
theorem mean_abs_diff_uniform (img : Img) (c1 c2 : Nat)
    (hc1 : c1 < 3) (hc2 : c2 < 3)
    (hwf : ∀ row ∈ img.px, ∀ p ∈ row, 3 ≤ p.length)
    (hu : ChannelsUniform img) : mean_abs_diff img c1 c2 = 0 := by
  unfold mean_abs_diff
  have hz : ∀ x ∈ (img.px.flatten.map fun p =>
      |((p.getD c1 0 : Nat) : ℚ) - ((p.getD c2 0 : Nat) : ℚ)|), x = 0 := by
    intro x hx
    rcases List.mem_map.mp hx with ⟨p, hp, rfl⟩
    rcases List.mem_flatten.mp hp with ⟨row, hrow, hprow⟩
    have hlen := hwf row hrow p hprow
    have h1 : c1 < p.length := lt_of_lt_of_le hc1 hlen
    have h2 : c2 < p.length := lt_of_lt_of_le hc2 hlen
    rw [List.getD_eq_getElem p 0 h1, List.getD_eq_getElem p 0 h2]
    rw [hu row hrow p hprow _ (List.getElem_mem h1) _ (List.getElem_mem h2)]
    simp
  simp only [List.sum_eq_zero hz, zero_div]

/-- Claim C6, counterexample: a CMYK-container image whose per-channel
values are identical everywhere is not detected as grayscale (every mode
outside L/LA/1/RGB/RGBA returns False, whatever the pixels are); the same
holds for the single-channel 32-bit mode I. -/
theorem c6_counterexample :
    ChannelsUniform ⟨"CMYK", [[[5, 5, 5, 5]]]⟩ ∧
    detect_grayscale_image ⟨"CMYK", [[[5, 5, 5, 5]]]⟩ = false ∧
    ChannelsUniform ⟨"I", [[[7]]]⟩ ∧
    detect_grayscale_image ⟨"I", [[[7]]]⟩ = false := by
  decide

/-- Claim C6 (amended): the detector returns True for the modes L, LA
and 1; for RGB and RGBA images with at least three channels it returns
True exactly when the maximum of the three mean absolute channel
differences is below 2.0 — in particular it returns True whenever the
per-channel values are identical everywhere — and for every other
container mode it returns False regardless of pixel content. -/
theorem c6_grayscale_detection (img : Img) :
    ((img.mode = "L" ∨ img.mode = "LA" ∨ img.mode = "1") →
      detect_grayscale_image img = true) ∧
    ((img.mode = "RGB" ∨ img.mode = "RGBA") → 3 ≤ img.nch →
      (detect_grayscale_image img = true ↔
        max (mean_abs_diff img 0 1)
          (max (mean_abs_diff img 0 2) (mean_abs_diff img 1 2)) < 2)) ∧
    (¬(img.mode = "L" ∨ img.mode = "LA" ∨ img.mode = "1" ∨
       img.mode = "RGB" ∨ img.mode = "RGBA") →
      detect_grayscale_image img = false) ∧
    ((img.mode = "RGB" ∨ img.mode = "RGBA") → 3 ≤ img.nch →
      (∀ row ∈ img.px, ∀ p ∈ row, 3 ≤ p.length) →
      ChannelsUniform img →
      detect_grayscale_image img = true) := by
  refine ⟨?_, ?_, ?_, ?_⟩
  · intro h
    unfold detect_grayscale_image
    rw [if_pos h]
  · intro h hn
    have hne : ¬(img.mode = "L" ∨ img.mode = "LA" ∨ img.mode = "1") := by
      rcases h with h | h <;> rw [h] <;> decide
    unfold detect_grayscale_image
    rw [if_neg hne, if_pos h, if_pos hn]
    simp
  · intro h
    push_neg at h
    unfold detect_grayscale_image
    rw [if_neg (by tauto), if_neg (by tauto)]
  · intro h hn hwf hu
    have hne : ¬(img.mode = "L" ∨ img.mode = "LA" ∨ img.mode = "1") := by
      rcases h with h | h <;> rw [h] <;> decide
    unfold detect_grayscale_image
    rw [if_neg hne, if_pos h, if_pos hn]
    rw [mean_abs_diff_uniform img 0 1 (by norm_num) (by norm_num) hwf hu,
        mean_abs_diff_uniform img 0 2 (by norm_num) (by norm_num) hwf hu,
        mean_abs_diff_uniform img 1 2 (by norm_num) (by norm_num) hwf hu]
    decide

/-- Witness for C6: a genuinely grayscale 3-channel RGB image is detected
as grayscale. -/
theorem c6_grayscale_detection_witness :
    detect_grayscale_image ⟨"RGB", [[[5, 5, 5]]]⟩ = true :=
  (c6_grayscale_detection ⟨"RGB", [[[5, 5, 5]]]⟩).2.2.2 (Or.inl rfl)
    (by decide) (by decide) (by decide)

/-- Claim C3: on the dermatological path a pathological confidence above
0.4 forces the findings flag with significance `condition_monitoring`
(which lies in {condition_monitoring, follow_up_recommended}), and a
confidence at most 0.25 forces the flag off. -/
theorem c3_derm_confidence_tiers (nd : Nat) (o : DermObs) :
    (2/5 < (analyze_pathological_indicators "dermatological_image" nd o).pathological_confidence →
      (analyze_pathological_indicators "dermatological_image" nd o).has_pathological_findings
        = true ∧
      (analyze_pathological_indicators "dermatological_image" nd o).clinical_significance ∈
        ["condition_monitoring", "follow_up_recommended"]) ∧
    ((analyze_pathological_indicators "dermatological_image" nd o).pathological_confidence
        ≤ 1/4 →
      (analyze_pathological_indicators "dermatological_image" nd o).has_pathological_findings
        = false) := by
  have hmt : analyze_pathological_indicators "dermatological_image" nd o =
      analyze_dermatological_pathology nd o := by
    unfold analyze_pathological_indicators
    rw [if_pos rfl]
  rw [hmt]
  unfold analyze_dermatological_pathology
  by_cases hnd : nd ≠ 3
  · rw [if_pos hnd]
    exact ⟨fun hgt => absurd hgt (by norm_num), fun _ => rfl⟩
  · rw [if_neg hnd]
    dsimp only
    split_ifs with h1 h2
    · constructor
      · intro _
        exact ⟨rfl, by simp⟩
      · intro hle
        dsimp only at hle
        have h25 : (2 : ℚ)/5 < min 1 (derm_score o) := lt_min (by norm_num) h1
        linarith
    · constructor
      · intro _
        exact ⟨rfl, by simp⟩
      · intro hle
        dsimp only at hle
        have h14 : (1 : ℚ)/4 < min 1 (derm_score o) := lt_min (by norm_num) h2
        linarith
    · constructor
      · intro hgt
        dsimp only at hgt
        have hmin : min 1 (derm_score o) ≤ derm_score o := min_le_right _ _
        have hs : derm_score o ≤ 2/5 := le_of_not_lt h1
        linarith
      · intro _
        rfl

/-- Witness for C3: a dermatological image with high color variance and
redness (confidence 0.55 > 0.4) has findings flagged with an allowed
significance. -/
theorem c3_derm_confidence_tiers_witness :
    (analyze_pathological_indicators "dermatological_image" 3
      ⟨2000, 1/2, 0, 0, 0, 0⟩).has_pathological_findings = true ∧
    (analyze_pathological_indicators "dermatological_image" 3
      ⟨2000, 1/2, 0, 0, 0, 0⟩).clinical_significance ∈
      ["condition_monitoring", "follow_up_recommended"] :=
  (c3_derm_confidence_tiers 3 ⟨2000, 1/2, 0, 0, 0, 0⟩).1
    (by with_unfolding_all decide)

/-- The dermatological score is a sum of non-negative contributions. -/
theorem derm_score_nonneg (o : DermObs) : 0 ≤ derm_score o := by
  unfold derm_score
  repeat' apply add_nonneg
  all_goals split_ifs <;> norm_num

/-- The pathological confidence of every sub-analyzer lies in [0, 1]. -/
theorem path_conf_bounds (mt : String) (nd : Nat) (o : DermObs) :
    0 ≤ (analyze_pathological_indicators mt nd o).pathological_confidence ∧
    (analyze_pathological_indicators mt nd o).pathological_confidence ≤ 1 := by
  unfold analyze_pathological_indicators
  split_ifs with h1 h2 h3 h4
  · unfold analyze_dermatological_pathology
    split_ifs with hnd
    · norm_num
    · dsimp only
      split_ifs with ha hb <;>
        exact ⟨le_min (by norm_num) (derm_score_nonneg o), min_le_left _ _⟩
  · unfold analyze_radiological_pathology
    rw [if_neg (by norm_num)]
    norm_num
  · unfold analyze_clinical_photo_pathology
    rw [if_neg (by norm_num)]
    norm_num
  · unfold analyze_histological_pathology
    norm_num
  · norm_num

/-- The medical relevance score lies in [0, 1]. -/
theorem relevance_bounds (img : Img) (name : String) (mt : String) :
    0 ≤ calculate_medical_relevance_score img name mt ∧
    calculate_medical_relevance_score img name mt ≤ 1 := by
  unfold calculate_medical_relevance_score
  dsimp only
  constructor
  · apply le_min (by norm_num)
    repeat' apply add_nonneg
    · norm_num
    · positivity
    all_goals split_ifs <;> norm_num
  · exact min_le_left _ _

/-- Claim C9: for every input, whenever the analysis carries a
`medical_relevance_score` or a `pathological_confidence`, the value lies
in the interval [0, 1]. -/
theorem c9_scores_unit_interval (env : Env) (f : RawFile) :
    (∀ r : ℚ, (analyze_medical_image env f).medical_relevance_score = some r →
      0 ≤ r ∧ r ≤ 1) ∧
    (∀ p : PathologicalAnalysis, (analyze_medical_image env f).pathological = some p →
      0 ≤ p.pathological_confidence ∧ p.pathological_confidence ≤ 1) := by
  have hstd : ∀ (g : RawFile),
      (∀ r : ℚ, (analyze_standard_medical_image g).medical_relevance_score = some r →
        0 ≤ r ∧ r ≤ 1) ∧
      (∀ p : PathologicalAnalysis, (analyze_standard_medical_image g).pathological = some p →
        0 ≤ p.pathological_confidence ∧ p.pathological_confidence ≤ 1) := by
    intro g
    unfold analyze_standard_medical_image
    rcases hd : g.decoded with e | img
    · constructor
      · intro r hr
        simp only [create_fallback_analysis, Option.some.injEq] at hr
        subst hr
        norm_num
      · intro p hp
        simp [create_fallback_analysis] at hp
    · constructor
      · intro r hr
        simp only [Option.some.injEq] at hr
        subst hr
        exact relevance_bounds img g.name _
      · intro p hp
        simp only [Option.some.injEq] at hp
        subst hp
        exact path_conf_bounds _ _ _
  have hdic : ∀ (g : RawFile),
      (∀ r : ℚ, (analyze_dicom_image env g).medical_relevance_score = some r →
        0 ≤ r ∧ r ≤ 1) ∧
      (∀ p : PathologicalAnalysis, (analyze_dicom_image env g).pathological = some p →
        0 ≤ p.pathological_confidence ∧ p.pathological_confidence ≤ 1) := by
    intro g
    unfold analyze_dicom_image
    split_ifs with hav
    · rcases hp : g.dicomParsed with e | d
      · exact hstd g
      · constructor
        · intro r hr
          simp at hr
        · intro p hp
          simp at hp
    · exact hstd g
  unfold analyze_medical_image
  by_cases hm : might_be_dicom f.bytes f.name
  · by_cases hd : (analyze_dicom_image env f).is_dicom
    · simpa [hm, hd] using hdic f
    · simp only [hm, if_true, hd, Bool.false_eq_true, if_false]
      exact hstd f
  · simp only [hm, if_false]
    exact hstd f

/-- Witness for C9: the relevance score of the concrete photo analysis is
0.7, inside the unit interval. -/
theorem c9_scores_unit_interval_witness :
    0 ≤ (7 : ℚ)/10 ∧ (7 : ℚ)/10 ≤ 1 :=
  (c9_scores_unit_interval envT fPhoto).1 (7/10) (by with_unfolding_all decide)

/-! ### Claims C4 and C2 -/

/-- The clinical-significance values the pathological analyzers can
actually produce: the seven of the spec plus the `skin_documentation`
early-return of the dermatological analyzer on non-3-D arrays. -/
def observed_significance_set : List String :=
  spec_significance_set ++ ["skin_documentation"]

/-- Claim C4, counterexample: the grayscale image `skin.png` is typed
`dermatological_image` by filename, its 2-D pixel array takes the
dermatological analyzer early return, and the analysis carries
`clinical_significance = "skin_documentation"`, outside the seven-value
enum; moreover its confidence 0.0 coincides with the confidence of an
ultrasound analysis whose significance is `routine_documentation`, so the
significance is not a function of the confidence alone. -/
theorem c4_counterexample :
    ((analyze_medical_image envT fSkin).pathological.map
      (fun p => p.clinical_significance)) = some "skin_documentation" ∧
    ((analyze_medical_image envT fSkin).pathological.map
      (fun p => p.pathological_confidence)) = some 0 ∧
    "skin_documentation" ∉ spec_significance_set ∧
    (analyze_pathological_indicators "ultrasound" 3 dermObs0).pathological_confidence = 0 ∧
    (analyze_pathological_indicators "ultrasound" 3 dermObs0).clinical_significance =
      "routine_documentation" ∧
    "routine_documentation" ≠ "skin_documentation" := by
  with_unfolding_all decide

/-- Claim C4 (amended): within each analyzer the significance is set
together with the pathological score by fixed thresholds, but across
analyzers it depends on the medical type (the same confidence 0.0 yields
`routine_documentation`, `screening_examination`, `skin_documentation` or
`routine_skin_documentation`), and it always belongs to the eight-value
set: the seven enum values of the spec together with
`skin_documentation`. -/
theorem c4_significance_enum (mt : String) (nd : Nat) (o : DermObs) :
    (analyze_pathological_indicators mt nd o).clinical_significance ∈
      observed_significance_set := by
  unfold analyze_pathological_indicators
  split_ifs with h1 h2 h3 h4
  · unfold analyze_dermatological_pathology
    split_ifs with hnd
    · simp [observed_significance_set, spec_significance_set]
    · dsimp only
      split_ifs with ha hb <;>
        simp [observed_significance_set, spec_significance_set]
  · unfold analyze_radiological_pathology
    rw [if_neg (by norm_num)]
    simp [observed_significance_set, spec_significance_set]
  · unfold analyze_clinical_photo_pathology
    rw [if_neg (by norm_num)]
    simp [observed_significance_set, spec_significance_set]
  · unfold analyze_histological_pathology
    simp [observed_significance_set, spec_significance_set]
  · simp [observed_significance_set, spec_significance_set]

/-- Claim C2 (amended): the deduplicated keyword list never exceeds 15
entries and contains no exact duplicates, and whenever one output keyword
is a strict substring of another output keyword the substring has
strictly higher priority than its superstring (a substring of
lower-or-equal priority is dropped by the redundancy pass; a
lower-priority superstring, however, may remain alongside the
higher-priority substring). -/
theorem c2_keyword_list_properties (keywords : List String) :
    (deduplicate_and_prioritize_keywords keywords).length ≤ 15 ∧
    (deduplicate_and_prioritize_keywords keywords).Nodup ∧
    (∀ a ∈ deduplicate_and_prioritize_keywords keywords,
      ∀ b ∈ deduplicate_and_prioritize_keywords keywords,
        a ≠ b → sub_of a b = true → keyword_priority b < keyword_priority a) := by
  unfold deduplicate_and_prioritize_keywords
  dsimp only
  set final1 := step2_go (dedup_first keywords) (dedup_first keywords) [] with hf1
  refine ⟨List.length_take_le _ _, ?_, ?_⟩
  · exact List.Nodup.sublist (List.take_sublist _ _)
      ((List.perm_insertionSort _ _).nodup_iff.mpr (dedup_first_nodup _))
  · intro a ha b hb hne hsub
    have ha1 : a ∈ final1.filter (fun kw => ! substring_redundant final1 kw) :=
      dedup_first_subset _
        ((List.perm_insertionSort _ _).mem_iff.mp (List.take_subset _ _ ha))
    have hb1 : b ∈ final1.filter (fun kw => ! substring_redundant final1 kw) :=
      dedup_first_subset _
        ((List.perm_insertionSort _ _).mem_iff.mp (List.take_subset _ _ hb))
    have hbmem : b ∈ final1 := (List.mem_filter.mp hb1).1
    have hpred : substring_redundant final1 a = false := by
      have := (List.mem_filter.mp ha1).2
      simpa using this
    by_contra hlt
    have hle : keyword_priority a ≤ keyword_priority b := le_of_not_lt hlt
    have : substring_redundant final1 a = true := by
      unfold substring_redundant
      refine List.any_eq_true.mpr ⟨b, hbmem, ?_⟩
      simp [hne, hsub, hle]
    rw [hpred] at this
    exact Bool.false_ne_true this

/-- Witness for C2 (amended): on the keyword list
`["dermatology", "routine dermatology"]` both keywords survive and the
substring `dermatology` has the strictly higher priority. -/
theorem c2_keyword_list_properties_witness :
    (deduplicate_and_prioritize_keywords ["dermatology", "routine dermatology"]).length ≤ 15 ∧
    keyword_priority "routine dermatology" < keyword_priority "dermatology" :=
  ⟨(c2_keyword_list_properties ["dermatology", "routine dermatology"]).1,
    (c2_keyword_list_properties ["dermatology", "routine dermatology"]).2.2
      "dermatology" (by decide) "routine dermatology" (by decide)
      (by decide) (by decide)⟩

/-- Claim C2, counterexample: the keyword list generated for the concrete
photo analysis retains both `dermatology` (priority 5) and its
lower-priority superstring `routine dermatology` (priority 0), so it is
not true that of two output keywords in substring relation only the
higher-priority one remains. -/
theorem c2_counterexample :
    "dermatology" ∈ generate_medical_keywords
      (analyze_medical_image envT fPhoto).medical_type
      (analyze_medical_image envT fPhoto) ∧
    "routine dermatology" ∈ generate_medical_keywords
      (analyze_medical_image envT fPhoto).medical_type
      (analyze_medical_image envT fPhoto) ∧
    sub_of "dermatology" "routine dermatology" = true ∧
    "dermatology" ≠ "routine dermatology" ∧
    keyword_priority "routine dermatology" < keyword_priority "dermatology" := by
  with_unfolding_all decide

end MedImg
